import Mathlib

/-!
A shallow embedding of the flow-routing / verification core of the Sorti365
multimodal chat backend (NestJS + TypeScript), together with theorems checking
the natural-language specification of that core against the code.

Embedding conventions, used uniformly below:
* JavaScript optional strings: the source only ever distinguishes `undefined`
  from `''` through truthiness (`!s`, `s || d`), so optional string fields are
  modelled as `String` with `""` standing for an absent value.
* Numbers (amounts, odds, confidences) are modelled as `ℚ`.
* `Date`-valued fields (timestamps such as `verifiedAt`, `startedAt`,
  `scheduled`) carry no logic in the verified code paths and are omitted.
* External capabilities (vision model, OCR, NLP intent classifier, identity
  store writes) are oracles: their results are inputs to the embedded
  functions, exactly at the call sites where the source `await`s them.
* `toLowerCase` is modelled as ASCII lowercasing (`Char.toLower`); every
  lexicon keyword in the source is ASCII-lowercase or already-lowercase
  accented Spanish, which this maps identically.
-/

namespace Sorti365

/-! ## JavaScript string primitives used by the source -/

/-- `String.prototype.includes`: substring containment. -/
def jsIncludesAux (hay needle : List Char) : Bool :=
  needle.isPrefixOf hay ||
    match hay with
    | [] => false
    | _ :: t => jsIncludesAux t needle

/-- `hay.includes(needle)` for JS strings. -/
def jsIncludes (hay needle : String) : Bool :=
  jsIncludesAux hay.toList needle.toList

/-- `String.prototype.toLowerCase` (ASCII approximation, see header). -/
def jsToLower (s : String) : String :=
  ⟨s.toList.map Char.toLower⟩

/-- JS `a || b` on strings: `""` (and absent) is falsy. -/
def jsOrS (a b : String) : String :=
  if a = "" then b else a

/-- JS `a || b` on numbers: `0` (and absent) is falsy. -/
def jsOrQ (a b : ℚ) : ℚ :=
  if a = 0 then b else a

/-- JS `s.replace(/^0+/, '')`: strip leading `'0'` characters. -/
def stripLeadingZeros (s : String) : String :=
  ⟨s.toList.dropWhile (· = '0')⟩

/-- JS `s.padStart(10, '0')`: left-pad with zeros to length 10. -/
def padStart10 (s : String) : String :=
  ⟨List.replicate (10 - s.length) '0' ++ s.toList⟩

/-- `\d` of the JS regexes (ASCII digits). -/
def isDigitChar (c : Char) : Bool :=
  '0' ≤ c && c ≤ '9'

/-- `\s` of the JS regexes, restricted to the ASCII whitespace that can occur
in chat text. -/
def isSpaceChar (c : Char) : Bool :=
  c = ' ' || c = '\t' || c = '\n' || c = '\r'

/-- Whitespace as `String.prototype.trim` sees it (ASCII fragment). -/
def isSpaceCharTrim (c : Char) : Bool :=
  c = ' ' || c = '\t' || c = '\n' || c = '\r'

/-- `String.prototype.trim`: strip whitespace from both ends. -/
def jsTrim (s : String) : String :=
  ⟨((s.toList.dropWhile isSpaceCharTrim).reverse.dropWhile isSpaceCharTrim).reverse⟩

/-! ## Chat data model (`chat-session.schema.ts`, `chat-message.schema.ts`) -/

inductive SessionStatus
  | active
  | closed
  deriving DecidableEq, Repr

inductive SessionContext
  | ticket_verification
  | kyc
  | general
  deriving DecidableEq, Repr

inductive KYCStep
  | not_started
  | front_document
  | back_document
  | selfie
  | completed
  deriving DecidableEq, Repr

/-- `KYCState` sub-document of a chat session (timestamps omitted). -/
structure KYCState where
  currentStep : KYCStep
  documentNumber : String := ""
  fullName : String := ""
  dateOfBirth : String := ""
  frontImageVerified : Bool := false
  backImageVerified : Bool := false
  selfieVerified : Bool := false
  frontImageBase64 : String := ""
  backImageBase64 : String := ""
  deriving DecidableEq, Repr

inductive MessageRole
  | user
  | assistant
  | system
  deriving DecidableEq, Repr

/-! ## Bet ledger data model (`bet.schema.ts`) -/

/-- Localized `{ es, en }` name object; the whole object may be absent
(`?.` chains in the source), which is modelled by `Option`. -/
structure LocalizedName where
  es : String
  en : String
  deriving DecidableEq, Repr

/-- `BetOutcome` (fields not read by the verified code omitted). -/
structure BetOutcome where
  odds : ℚ
  outcomeName : Option LocalizedName
  deriving DecidableEq, Repr

/-- A bet leg (`BetEvent`), restricted to the fields the backoffice service
reads. -/
structure BetEvent where
  sportEventName : Option LocalizedName
  tournamentName : Option LocalizedName
  nameMarket : Option LocalizedName
  outcome : Option BetOutcome
  result : String := ""
  isResulted : Bool := false
  deriving DecidableEq, Repr

structure BetTicket where
  ticketId : String := ""
  deriving DecidableEq, Repr

/-- A ledger bet record (`Bet`), restricted to the fields the backoffice
service reads. -/
structure Bet where
  betLocalId : String
  ticket : Option BetTicket := none
  events : List BetEvent := []
  amountBet : ℚ := 0
  oddsTotal : ℚ := 0
  totalGain : ℚ := 0
  betType : String := ""
  result : String := ""
  isResulted : Bool := false
  currency : String := ""
  playerNickname : String := ""
  deriving DecidableEq, Repr

/-! ## Identity store data model (`player.schema.ts`) -/

/-- `PersonalInfo`, restricted to the fields the verified code reads. -/
structure PersonalInfo where
  firstName : String := ""
  lastName : String := ""
  nickname : String := ""
  username : String := ""
  documentNumber : String := ""
  deriving DecidableEq, Repr

structure VerificationAndLocks where
  verify : Bool
  deriving DecidableEq, Repr

/-- A player record. `accountPlayerId` is the platform account id the
orchestrator passes as `playerId`. -/
structure Player where
  accountPlayerId : String
  personalInfo : PersonalInfo
  verificationAndLocks : Option VerificationAndLocks := none
  deriving DecidableEq, Repr

/-! ## Backoffice service (`backoffice.service.ts`) -/

structure BetSearchResult where
  found : Bool
  bet : Option Bet
  error : String := ""
  deriving DecidableEq, Repr

/-- `BackofficeService.findBetByLocalId`: look the id up literally, with
leading zeros stripped, and zero-padded to 10 digits (`$or` query against the
ledger, first match wins). -/
def findBetByLocalId (ledger : List Bet) (betLocalId : String) : BetSearchResult :=
  let normalizedId := stripLeadingZeros betLocalId
  let paddedId := padStart10 betLocalId
  match ledger.find? (fun b =>
      b.betLocalId = betLocalId ∨ b.betLocalId = normalizedId ∨ b.betLocalId = paddedId) with
  | some bet => { found := true, bet := some bet }
  | none =>
      { found := false, bet := none,
        error := "No se encontró ninguna apuesta con el ID " ++ betLocalId }

/-- `?.es` on a possibly-absent localized name (`undefined` → `""`). -/
def locES (o : Option LocalizedName) : String :=
  match o with
  | some l => l.es
  | none => ""

/-- `?.en` on a possibly-absent localized name. -/
def locEN (o : Option LocalizedName) : String :=
  match o with
  | some l => l.en
  | none => ""

/-- `EventSummary` (scheduled date omitted). -/
structure EventSummary where
  sportEventName : String
  tournamentName : String
  marketName : String
  selectionName : String
  odds : ℚ
  result : String
  isResulted : Bool
  deriving DecidableEq, Repr

/-- `BetSummary` (date fields omitted). -/
structure BetSummary where
  ticketId : String
  betLocalId : String
  playerNickname : String
  amountBet : ℚ
  currency : String
  oddsTotal : ℚ
  totalGain : ℚ
  betType : String
  result : String
  isResulted : Bool
  eventsCount : ℕ
  events : List EventSummary
  deriving DecidableEq, Repr

/-- `BackofficeService.getBetSummary`. -/
def getBetSummary (bet : Bet) : BetSummary :=
  let events := bet.events.map (fun event =>
    { sportEventName := jsOrS (locES event.sportEventName) (jsOrS (locEN event.sportEventName) "N/A")
      tournamentName := jsOrS (locES event.tournamentName) (jsOrS (locEN event.tournamentName) "N/A")
      marketName := jsOrS (locES event.nameMarket) (jsOrS (locEN event.nameMarket) "N/A")
      selectionName := jsOrS (locES (event.outcome.bind (·.outcomeName)))
        (jsOrS (locEN (event.outcome.bind (·.outcomeName))) "N/A")
      odds := jsOrQ (match event.outcome with | some o => o.odds | none => 0) 0
      result := jsOrS event.result "Pendiente"
      isResulted := event.isResulted : EventSummary })
  { ticketId := jsOrS (match bet.ticket with | some t => t.ticketId | none => "") "N/A"
    betLocalId := bet.betLocalId
    playerNickname := bet.playerNickname
    amountBet := bet.amountBet
    currency := bet.currency
    oddsTotal := bet.oddsTotal
    totalGain := bet.totalGain
    betType := bet.betType
    result := jsOrS bet.result "Pendiente"
    isResulted := bet.isResulted
    eventsCount := bet.events.length
    events := events }

structure HumanAttention where
  requires : Bool
  reason : String
  deriving DecidableEq, Repr

/-- `BackofficeService.requiresHumanAttention`: an overall result of
`Canceled`/`Cancelled`, or any leg with result `Canceled`/`Cancelled`/`Void`,
needs a human operator. -/
def requiresHumanAttention (bet : Bet) : HumanAttention :=
  if bet.result = "Canceled" ∨ bet.result = "Cancelled" then
    { requires := true
      reason := "El ticket fue cancelado por el sistema. Esto puede deberse a decisiones del departamento de riesgo, políticas de bonos, o situaciones especiales que requieren revisión manual." }
  else
    let canceledEvents := bet.events.filter (fun e =>
      e.result = "Canceled" ∨ e.result = "Cancelled" ∨ e.result = "Void")
    if canceledEvents.length > 0 then
      { requires := true
        reason := toString canceledEvents.length ++ " evento(s) fueron cancelados/anulados. Esto puede ocurrir por cambios en el evento deportivo, errores en las cuotas, o decisiones del departamento de riesgo." }
    else
      { requires := false, reason := "" }

/-- `BackofficeService.getResultEmoji`. -/
def getResultEmoji (result : String) : String :=
  if result = "Won" then "✅"
  else if result = "Lost" then "❌"
  else if result = "Void" then "⚪"
  else if result = "Canceled" then "🚫"
  else if result = "Cancelled" then "🚫"
  else if result = "Cashout" then "💰"
  else if result = "Pending" then "⏳"
  else if result = "Pendiente" then "⏳"
  else "⏳"

/-- `BackofficeService.isAskingAboutLoss`. -/
def isAskingAboutLoss (question : String) : Bool :=
  ["perdido", "perdió", "perdi", "perdida", "porque perdi", "por que perdi"].any
    (fun kw => jsIncludes (jsToLower question) kw)

/-- `BackofficeService.isAskingAboutCancellation`. -/
def isAskingAboutCancellation (question : String) : Bool :=
  ["cancelado", "cancelada", "anulado", "anulada", "cancelaron", "anularon"].any
    (fun kw => jsIncludes (jsToLower question) kw)

/-- `BackofficeService.translateResult`. -/
def translateResult (result : String) : String :=
  if result = "Won" then "Ganado"
  else if result = "Lost" then "Perdido"
  else if result = "Void" then "Anulado"
  else if result = "Canceled" then "Cancelado"
  else if result = "Cancelled" then "Cancelado"
  else if result = "Pending" then "Pendiente"
  else if result = "Cashout" then "Cashout"
  else if result = "Pendiente" then "Pendiente"
  else result

/-- One `response += …` block of `BackofficeService.formatBetResponse`, in
source order.  The formatted chat reply is the rendering of this part list;
interpolated values are carried as payloads so that no number/date rendering
has to be modelled. -/
inductive RespPart
  | header (betLocalId : String)
  | statusLine (emoji translated : String)
  | typeLine (betType : String)
  | amountLine (amountBet : ℚ) (currency : String)
  | oddsLine (oddsTotal : ℚ)
  | gainLine (totalGain : ℚ) (currency : String)
  | potentialGainLine (potentialWin : ℚ) (currency : String)
  | dateLine
  | eventsHeader (count : ℕ)
  | eventItem (idx : ℕ) (emoji : String) (e : EventSummary)
  | humanAttentionNotice (reason : String)
  | lossExplanationHeader (lostCount : ℕ)
  | lossEventItem (idx : ℕ) (sportEventName selectionName marketName : String)
  | multipleBetNote (betType : String)
  | noCancellationNote
  deriving DecidableEq, Repr

/-- The unconditional head of `formatBetResponse` (ticket header, status,
amounts, and the per-leg detail list). -/
def betResponseBase (summary : BetSummary) : List RespPart :=
  [RespPart.header summary.betLocalId,
   RespPart.statusLine (getResultEmoji summary.result) (translateResult summary.result),
   RespPart.typeLine summary.betType,
   RespPart.amountLine summary.amountBet summary.currency,
   RespPart.oddsLine summary.oddsTotal]
  ++ (if summary.isResulted then
        [RespPart.gainLine summary.totalGain summary.currency]
      else
        [RespPart.potentialGainLine (summary.amountBet * summary.oddsTotal) summary.currency])
  ++ [RespPart.dateLine, RespPart.eventsHeader summary.eventsCount]
  ++ (summary.events.enum.map (fun p =>
        RespPart.eventItem p.1 (getResultEmoji p.2.result) p.2))

/-- `BackofficeService.formatBetResponse`.  Mirrors the source's sequence of
string appends; the human-attention branch returns early, exactly as the
source does. -/
def formatBetResponse (bet : Bet) (question : String) : List RespPart :=
  let summary := getBetSummary bet
  let base := betResponseBase summary
  let humanAttention := requiresHumanAttention bet
  if humanAttention.requires then
    base ++ [RespPart.humanAttentionNotice humanAttention.reason]
  else
    let lossSection : List RespPart :=
      if question ≠ "" ∧ isAskingAboutLoss question then
        let lostEvents := summary.events.filter (fun e => e.result = "Lost")
        if lostEvents.length > 0 then
          [RespPart.lossExplanationHeader lostEvents.length]
          ++ (lostEvents.enum.map (fun p =>
                RespPart.lossEventItem p.1 p.2.sportEventName p.2.selectionName p.2.marketName))
          ++ (if summary.betType = "Multiple" ∨ summary.betType = "Parlay" then
                [RespPart.multipleBetNote summary.betType]
              else [])
        else []
      else []
    let cancelSection : List RespPart :=
      if question ≠ "" ∧ isAskingAboutCancellation question then
        [RespPart.noCancellationNote]
      else []
    base ++ lossSection ++ cancelSection

/-- `BackofficeService.isPlayerVerified`. -/
def isPlayerVerified (player : Player) : Bool :=
  match player.verificationAndLocks with
  | some v => v.verify
  | none => false

/-- `BackofficeService.getPlayerDisplayName`. -/
def getPlayerDisplayName (player : Player) : String :=
  let info := player.personalInfo
  if info.firstName ≠ "" ∨ info.lastName ≠ "" then
    jsTrim (info.firstName ++ " " ++ info.lastName)
  else
    jsOrS info.nickname (jsOrS info.username "Usuario")

structure PlayerSearchResult where
  found : Bool
  player : Option Player
  deriving DecidableEq, Repr

/-- Modelled from the spec: `lookupIdentityByAccountId(accountId) -> record |
notFound`.  The source calls `BackofficeService.findPlayerByAccountPlayerId`,
whose implementation is not among the provided sources (only its callers are);
following the spec it resolves the platform account id against the identity
store. -/
def findPlayerByAccountPlayerId (players : List Player) (accountPlayerId : String) :
    PlayerSearchResult :=
  match players.find? (fun p => p.accountPlayerId = accountPlayerId) with
  | some p => { found := true, player := some p }
  | none => { found := false, player := none }

/-- Modelled from the spec: the identity record's stored document number
("if the identity record already has a stored document number…").  The source
calls `BackofficeService.getPlayerDocumentNumber`, whose implementation is not
among the provided sources; the `Player` schema stores the number at
`personalInfo.documentNumber`. -/
def getPlayerDocumentNumber (player : Player) : String :=
  player.personalInfo.documentNumber

structure DocRegistrationCheck where
  isRegistered : Bool
  deriving DecidableEq, Repr

/-- Modelled from the spec: "if the extracted document number is already
associated with a *different* account, fail with a duplicate-registration
explanation".  The source calls
`BackofficeService.isDocumentRegisteredToOtherPlayer`, whose implementation is
not among the provided sources. -/
def isDocumentRegisteredToOtherPlayer (players : List Player)
    (documentNumber playerId : String) : DocRegistrationCheck :=
  { isRegistered := players.any (fun p =>
      p.personalInfo.documentNumber = documentNumber ∧ p.accountPlayerId ≠ playerId) }

structure UpdateResult where
  success : Bool
  deriving DecidableEq, Repr

/-! ## Extraction-gateway oracle results

The vision model, OCR service and NLP classifier are external collaborators
(spec §2); each call site receives the call's result from one of the
structures below.  JSON fields are carried after JS truthiness defaulting
(`x || 0`, `x || false`), matching how the source consumes them. -/

/-- Result of `multimodalService.analyzeImage` (raw-text vision call). -/
structure VisionResult where
  success : Bool
  rawResponse : String
  deriving DecidableEq, Repr

/-- `extractedData` of `multimodalService.analyzeDocument` for a front
document. -/
structure FrontExtractedData where
  documentNumber : String := ""
  fullName : String := ""
  firstName : String := ""
  lastName : String := ""
  dateOfBirth : String := ""
  confidence : ℚ := 0
  deriving DecidableEq, Repr

/-- Result of `multimodalService.analyzeDocument`. -/
structure DocVisionResult where
  success : Bool
  extractedData : Option FrontExtractedData
  deriving DecidableEq, Repr

/-- Result of `microservicesClient.extractDocumentData` (OCR fallback). -/
structure OcrDocResult where
  success : Bool
  document_number : String := ""
  full_name : String := ""
  confidence : ℚ := 0
  deriving DecidableEq, Repr

/-- Outcome of the source's `rawResponse.match(/\x7b[\s\S]*\x7d/)` +
`JSON.parse` step on a vision reply.  `JSON.parse` is a host primitive, so the
extraction/parse outcome is an oracle input: `noJson` = the brace regex found
nothing, `parseError` = `JSON.parse` threw, `ok` = a parsed object. -/
inductive JsonOutcome (α : Type)
  | noJson
  | parseError
  | ok (data : α)
  deriving DecidableEq, Repr

/-- Parsed JSON of the back-document vision check, after JS truthiness
defaulting of each field. -/
structure BackVisionJson where
  isBackOfDocument : Bool
  isVisible : Bool
  isClear : Bool
  confidence : ℚ := 0
  issues : List String := []
  deriving DecidableEq, Repr

/-- Parsed JSON of the selfie vision check, after JS truthiness defaulting. -/
structure SelfieVisionJson where
  facesDetected : ℚ := 0
  isHoldingDocument : Bool := false
  faceMatchConfidence : ℚ := 0
  isClear : Bool := false
  confidence : ℚ := 0
  issues : List String := []
  deriving DecidableEq, Repr

/-- Oracle for one `verifyFrontDocument` run: the vision call and the OCR
fallback call. -/
structure FrontDocEnv where
  vision : DocVisionResult
  ocr : OcrDocResult
  deriving DecidableEq, Repr

/-- Oracle for one `verifyBackDocument` run. -/
structure BackDocEnv where
  vision : VisionResult
  parsed : JsonOutcome BackVisionJson
  deriving DecidableEq, Repr

/-- Oracle for one `verifySelfieWithDocument` run. -/
structure SelfieEnv where
  vision : VisionResult
  parsed : JsonOutcome SelfieVisionJson
  deriving DecidableEq, Repr

/-! ## KYC verification service (`kyc-verification.service.ts`, the
context-carrying version with `verifyFrontDocument` / `verifyBackDocument` /
`verifySelfieWithDocument`) -/

structure FrontDocumentResult where
  success : Bool
  documentNumber : String := ""
  fullName : String := ""
  dateOfBirth : String := ""
  validationErrors : List String
  confidence : ℚ
  deriving DecidableEq, Repr

/-- `KYCVerificationService.verifyFrontDocument`: vision extraction with OCR
fallback, document-number presence check, stored-number mismatch check,
duplicate-registration check. -/
def verifyFrontDocument (players : List Player) (env : FrontDocEnv)
    (playerId : String) : FrontDocumentResult :=
  let (documentNumber₀, fullName₀, dateOfBirth, confidence₀) :=
    match env.vision.extractedData with
    | some data =>
        if env.vision.success then
          (data.documentNumber,
           jsOrS data.fullName (jsTrim (data.firstName ++ " " ++ data.lastName)),
           data.dateOfBirth,
           jsOrQ data.confidence (mkRat 8 10))
        else ("", "", "", 0)
    | none => ("", "", "", 0)
  let (documentNumber, fullName, confidence) :=
    if documentNumber₀ = "" ∨ fullName₀ = "" then
      if env.ocr.success then
        (jsOrS documentNumber₀ env.ocr.document_number,
         jsOrS fullName₀ env.ocr.full_name,
         max confidence₀ (jsOrQ env.ocr.confidence 0))
      else (documentNumber₀, fullName₀, confidence₀)
    else (documentNumber₀, fullName₀, confidence₀)
  if documentNumber = "" then
    { success := false
      validationErrors := ["No se pudo extraer el número de documento. Por favor, envía una foto más clara del frente de tu cédula."]
      confidence := 0 }
  else
    let errs₁ : List String :=
      if fullName = "" then
        ["No se pudo extraer el nombre completo. Por favor, envía una foto más clara."]
      else []
    let playerResult := findPlayerByAccountPlayerId players playerId
    let errs₂ : List String :=
      match playerResult.player with
      | some player =>
          let playerDocNumber := getPlayerDocumentNumber player
          if playerResult.found ∧ playerDocNumber ≠ "" ∧ playerDocNumber ≠ documentNumber then
            ["El número de documento de la cédula (" ++ documentNumber
              ++ ") no coincide con el registrado en tu cuenta (" ++ playerDocNumber
              ++ "). Por favor, utiliza el documento correcto."]
          else []
      | none => []
    let docCheck := isDocumentRegisteredToOtherPlayer players documentNumber playerId
    let errs₃ : List String :=
      if docCheck.isRegistered then
        ["Este documento ya está registrado con otra cuenta. Si crees que es un error, contacta a soporte."]
      else []
    let validationErrors := errs₁ ++ errs₂ ++ errs₃
    { success := validationErrors.isEmpty
      documentNumber := documentNumber
      fullName := fullName
      dateOfBirth := dateOfBirth
      validationErrors := validationErrors
      confidence := confidence }

structure BackDocumentResult where
  success : Bool
  isVisible : Bool
  validationErrors : List String
  confidence : ℚ
  deriving DecidableEq, Repr

/-- `KYCVerificationService.verifyBackDocument`: deliberately permissive
legibility check of the document's back. -/
def verifyBackDocument (env : BackDocEnv) : BackDocumentResult :=
  let (isVisible, confidence, errs) :=
    if env.vision.success then
      match env.parsed with
      | JsonOutcome.ok data =>
          let isVisible := data.isBackOfDocument && data.isVisible && data.isClear
          let errs :=
            (if ¬data.isBackOfDocument then
               ["La imagen no parece ser el reverso de un documento de identidad."] else [])
            ++ (if ¬data.isVisible then
                  ["El documento no es claramente visible."] else [])
            ++ (if ¬data.isClear then
                  ["La imagen no es lo suficientemente clara. Por favor, toma una foto con mejor iluminación."]
                else [])
            ++ data.issues
          (isVisible, jsOrQ data.confidence 0, errs)
      | JsonOutcome.noJson =>
          let isVisible := ¬jsIncludes (jsToLower env.vision.rawResponse) "no"
            && ¬jsIncludes (jsToLower env.vision.rawResponse) "error"
          (isVisible, mkRat 7 10,
           if ¬isVisible then
             ["No se pudo verificar correctamente el reverso del documento."] else [])
      | JsonOutcome.parseError => (true, mkRat 7 10, [])
    else
      (false, 0, ["Error al analizar la imagen del reverso del documento."])
  let success := errs.isEmpty && isVisible
  let validationErrors :=
    if ¬success ∧ errs.isEmpty then
      ["La imagen del reverso no cumple con los requisitos de verificación."]
    else errs
  { success := success
    isVisible := isVisible
    validationErrors := validationErrors
    confidence := confidence }

structure SelfieResult where
  success : Bool
  facesDetected : ℚ
  isHoldingDocument : Bool
  faceMatchConfidence : ℚ
  validationErrors : List String
  confidence : ℚ
  deriving DecidableEq, Repr

/-- `KYCVerificationService.verifySelfieWithDocument`: one face, visibly held
document, and a face-match confidence of at least 0.6.  When the vision call
succeeds but its reply has no parseable JSON (`noJson`) or `JSON.parse` throws
(`parseError`), the source falls back to `facesDetected = 1`,
`isHoldingDocument = true`, `faceMatchConfidence = 0.8` with no validation
errors. -/
def verifySelfieWithDocument (env : SelfieEnv) : SelfieResult :=
  let (facesDetected, isHoldingDocument, faceMatchConfidence, confidence, errs) :=
    if env.vision.success then
      match env.parsed with
      | JsonOutcome.ok data =>
          let errs :=
            (if data.facesDetected = 0 then
               ["No se detectó ningún rostro en la selfie."]
             else if data.facesDetected > 1 then
               ["Se detectaron múltiples rostros. La selfie debe mostrar solo a una persona."]
             else [])
            ++ (if ¬data.isHoldingDocument then
                  ["No se detectó que estés sosteniendo tu documento. Asegúrate de que la cédula sea visible en la foto."]
                else [])
            ++ (if data.faceMatchConfidence < mkRat 6 10 then
                  ["No pudimos confirmar que el rostro coincide con el documento. Por favor, toma una selfie más clara con mejor iluminación."]
                else [])
            ++ (if ¬data.isClear then
                  ["La selfie no es lo suficientemente clara."] else [])
            ++ data.issues
          (data.facesDetected, data.isHoldingDocument, data.faceMatchConfidence,
           data.confidence, errs)
      | JsonOutcome.noJson => (1, true, mkRat 8 10, mkRat 7 10, [])
      | JsonOutcome.parseError => (1, true, mkRat 8 10, mkRat 7 10, [])
    else
      (0, false, 0, 0, ([] : List String))
  let success := errs.isEmpty && decide (faceMatchConfidence ≥ mkRat 6 10)
  { success := success
    facesDetected := facesDetected
    isHoldingDocument := isHoldingDocument
    faceMatchConfidence := faceMatchConfidence
    validationErrors := errs
    confidence := confidence }

/-! ## `OrchestratorService.extractTicketId`

The source tries three regexes in order, returning the first capture group:
1. `(?:ticket|id|#|número|numero)\s*[:=]?\s*(\d\x7b4,10\x7d)` (case-insensitive)
2. `(\d\x7b8,10\x7d)`
3. `(?:^|\s)(0\x7b2,\x7d\d\x7b4,\x7d)`

Each is modelled as a leftmost-position scanner, with greediness resolved as
the JS engine does on these patterns (nothing follows the capture groups, so
greedy runs capped at the upper bound need no backtracking; pattern 3's
`0\x7b2,\x7d\d\x7b4,\x7d` captures a whole digit run iff it starts with at
least two zeros and is at least six digits long). -/

/-- Case-insensitive literal match; returns the rest of the input. -/
def matchLitCI (lit : List Char) (cs : List Char) : Option (List Char) :=
  match lit, cs with
  | [], rest => some rest
  | _ :: _, [] => none
  | l :: ls, c :: rest => if c.toLower = l then matchLitCI ls rest else none

/-- `\s*[:=]?\s*` separator of pattern 1. -/
def skipSeparator (cs : List Char) : List Char :=
  let cs₁ := cs.dropWhile isSpaceChar
  let cs₂ := match cs₁ with
    | c :: rest => if c = ':' ∨ c = '=' then rest else cs₁
    | [] => cs₁
  cs₂.dropWhile isSpaceChar

/-- Pattern 1 at one position: a label alternative, the separator, then 4–10
digits (greedy, capped at 10); label alternatives are tried in the source's
order. -/
def matchPattern1At (cs : List Char) : Option String :=
  ["ticket".toList, "id".toList, "#".toList, "número".toList, "numero".toList].findSome?
    (fun lit => (matchLitCI lit cs).bind (fun rest =>
      let digits := ((skipSeparator rest).takeWhile isDigitChar).take 10
      if digits.length ≥ 4 then some ⟨digits⟩ else none))

/-- Pattern 2 at one position: 8–10 digits (greedy, capped at 10). -/
def matchPattern2At (cs : List Char) : Option String :=
  let digits := (cs.takeWhile isDigitChar).take 10
  if digits.length ≥ 8 then some ⟨digits⟩ else none

/-- Group of pattern 3 at one position: a digit run starting with at least two
zeros, of total length at least 6 (`0\x7b2,\x7d` then `\d\x7b4,\x7d` with
backtracking resolved). -/
def matchPattern3GroupAt (cs : List Char) : Option String :=
  let run := cs.takeWhile isDigitChar
  let zeros := run.takeWhile (· = '0')
  if zeros.length ≥ 2 ∧ run.length ≥ 6 then some ⟨run⟩ else none

/-- Leftmost-position scan of a single-position matcher. -/
def scanPositions (f : List Char → Option String) : List Char → Option String
  | [] => f []
  | c :: rest =>
      match f (c :: rest) with
      | some r => some r
      | none => scanPositions f rest

/-- Pattern 3's `(?:^|\s)` anchor: try the group at the start of the text,
then after every whitespace character, leftmost first. -/
def scanPattern3 : List Char → Option String
  | [] => none
  | c :: rest =>
      if isSpaceChar c then
        match matchPattern3GroupAt rest with
        | some r => some r
        | none => scanPattern3 rest
      else scanPattern3 rest

/-- `OrchestratorService.extractTicketId`. -/
def extractTicketId (text : String) : Option String :=
  let cs := text.toList
  match scanPositions matchPattern1At cs with
  | some r => some r
  | none =>
      match scanPositions matchPattern2At cs with
      | some r => some r
      | none =>
          match matchPattern3GroupAt cs with
          | some r => some r
          | none => scanPattern3 cs

/-! ## Session store (`chat.service.ts`, the context-carrying version) -/

/-- `LastVerifiedTicket` sub-document: the resolved bet record is stored as
the parsed JSON copy of the ledger document. -/
structure LastVerifiedTicket where
  ticketId : String
  betData : Bet
  deriving DecidableEq, Repr

structure ChatSession where
  playerId : String := ""
  status : SessionStatus
  context : SessionContext
  lastVerifiedTicket : Option LastVerifiedTicket := none
  kycState : Option KYCState := none
  deriving DecidableEq, Repr

/-- The assistant reply of a turn, as the orchestrator assembles it.  Fixed
template texts (with their `${…}` interpolations already concatenated in) are
`lit`; payloads produced by collaborator services keep their structure. -/
inductive Reply
  | lit (s : String)
  | grounded (answer : String)
  | ticketImage (formatted : String) (withSuffix : Bool)
  | betResponse (parts : List RespPart) (withSuffix : Bool)
  | visionRaw (s : String)
  deriving DecidableEq, Repr

/-- A stored chat message (text content only; the orchestrator always appends
`\x7btype: TEXT, text: response\x7d`). -/
structure ChatMsg where
  role : MessageRole
  text : Reply
  deriving DecidableEq, Repr

/-- The session store's view of one conversation: the session document plus
its append-only message history. -/
structure ChatState where
  session : ChatSession
  messages : List ChatMsg
  deriving DecidableEq, Repr

/-- `ChatService.addMessage`: rejects closed sessions, otherwise appends. -/
def addMessage (st : ChatState) (role : MessageRole) (text : Reply) :
    Except String ChatState :=
  if st.session.status = SessionStatus.closed then
    Except.error "Session is closed"
  else
    Except.ok { st with messages := st.messages ++ [{ role := role, text := text }] }

/-- `ChatService.setLastVerifiedTicket`. -/
def setLastVerifiedTicket (st : ChatState) (ticketId : String) (betData : Bet) :
    ChatState :=
  { st with session :=
      { st.session with
          lastVerifiedTicket := some { ticketId := ticketId, betData := betData }
          context := SessionContext.ticket_verification } }

/-- `ChatService.clearTicketContext`. -/
def clearTicketContext (st : ChatState) : ChatState :=
  { st with session :=
      { st.session with
          lastVerifiedTicket := none
          context := SessionContext.general } }

/-- The `kycState` `initKYCProcess` installs (`currentStep: FRONT_DOCUMENT`,
everything else unset). -/
def initialKYCState : KYCState :=
  { currentStep := KYCStep.front_document }

/-- `ChatService.initKYCProcess`. -/
def initKYCProcess (st : ChatState) : ChatState :=
  { st with session :=
      { st.session with
          kycState := some initialKYCState
          context := SessionContext.kyc } }

/-- Payload of `ChatService.updateKYCFrontDocument`. -/
structure FrontDocUpdate where
  documentNumber : String
  fullName : String
  dateOfBirth : String
  frontImageBase64 : String
  deriving DecidableEq, Repr

/-- `ChatService.updateKYCFrontDocument`: record the extracted fields and
advance to `back_document`. -/
def updateKYCFrontDocument (st : ChatState) (data : FrontDocUpdate) : ChatState :=
  let ks := (st.session.kycState).getD initialKYCState
  { st with session :=
      { st.session with kycState := some (
          { ks with
              documentNumber := data.documentNumber
              fullName := data.fullName
              dateOfBirth := data.dateOfBirth
              frontImageVerified := true
              frontImageBase64 := data.frontImageBase64
              currentStep := KYCStep.back_document }) } }

/-- `ChatService.updateKYCBackDocument`: record the back image and advance to
`selfie` (the source throws when no KYC process exists; the orchestrator only
calls it with one in place, and the model keeps the state unchanged in that
vacuous case). -/
def updateKYCBackDocument (st : ChatState) (backImageBase64 : String) : ChatState :=
  match st.session.kycState with
  | none => st
  | some ks =>
      { st with session :=
          { st.session with kycState := some (
              { ks with
                  backImageVerified := true
                  backImageBase64 := backImageBase64
                  currentStep := KYCStep.selfie }) } }

/-- `ChatService.completeKYCProcess`. -/
def completeKYCProcess (st : ChatState) : ChatState :=
  match st.session.kycState with
  | none => st
  | some ks =>
      { st with session :=
          { st.session with kycState := some (
              { ks with
                  selfieVerified := true
                  currentStep := KYCStep.completed }) } }

/-- `ChatService.clearKYCState`. -/
def clearKYCState (st : ChatState) : ChatState :=
  { st with session :=
      { st.session with
          kycState := none
          context := SessionContext.general } }

/-! ## Flow router (`orchestrator.service.ts`, the context-carrying version) -/

inductive FlowType
  | ticket_verification
  | kyc_document
  | kyc_selfie
  | general_query
  deriving DecidableEq, Repr

/-- `EXIT_CONTEXT_KEYWORDS`. -/
def EXIT_CONTEXT_KEYWORDS : List String :=
  ["otra cosa", "otro tema", "cambiar", "salir", "consulta general",
   "nuevo ticket", "otra apuesta", "diferente", "no, gracias", "eso es todo",
   "nada más", "nada mas", "listo", "ok gracias", "ok, gracias"]

/-- `TICKET_FOLLOWUP_KEYWORDS`. -/
def TICKET_FOLLOWUP_KEYWORDS : List String :=
  ["por qué", "porque", "por que", "perdí", "perdi", "gané", "gane",
   "explica", "entiendo", "cómo", "como", "qué pasó", "que paso",
   "resultado", "evento", "partido", "cuota", "monto", "apuesta",
   "detalle", "más info", "mas info", "dime más", "dime mas"]

/-- `classifyIntent` result (`intent.type`; the confidence is not read by the
router). -/
structure IntentResult where
  type : String
  deriving DecidableEq, Repr

/-- `analyzeText` result (`nlpResult.intent.type` is all the router reads). -/
structure NlpResult where
  intentType : String
  deriving DecidableEq, Repr

/-- Result of `ticketVerificationService.verifyTicket` on the image branch,
together with the reply `formatTicketResponse` renders from it.  That service
is driven by vision/OCR/HTTP calls and renders dates through the host locale,
so its result and formatted reply are oracle inputs here. -/
structure TicketImageResult where
  success : Bool
  ticketId : String := ""
  bet : Option Bet := none
  formatted : String
  deriving DecidableEq, Repr

/-- Oracle inputs for one `processMessage` turn: one field per external call
site. -/
structure OrchestratorEnv where
  intent : Option IntentResult
  imageVision : VisionResult
  followUpAnswer : String
  ticketImage : TicketImageResult
  generalVision : VisionResult
  nlp : Option NlpResult
  front : FrontDocEnv
  back : BackDocEnv
  selfie : SelfieEnv
  setVerifiedOk : Bool
  deriving DecidableEq, Repr

/-- Modelled from the spec: `markIdentityVerified(accountId, documentNumber)
-> success | failure`.  The source calls `BackofficeService.setPlayerVerified`,
whose implementation is not among the provided sources; the write's outcome is
the oracle flag. -/
def setPlayerVerified (ok : Bool) (_accountPlayerId _documentNumber : String) :
    UpdateResult :=
  { success := ok }

/-- The follow-up suffix both ticket branches append on success. -/
def followUpSuffixText : String :=
  "\n\n---\n💬 **¿Tienes alguna pregunta sobre este ticket?** Puedo explicarte por qué ganaste o perdiste, detalles de los eventos, o cualquier otra duda. También puedes decir \"otra cosa\" para cambiar de tema."

/-- The not-found reply used by both the text-id branch and the general-query
branch. -/
def betNotFoundMsg (ticketId : String) : String :=
  "No encontré ninguna apuesta con el ID " ++ ticketId ++ ". Por favor verifica que el número sea correcto o envíame una foto del ticket para ayudarte mejor."

/-- `• ${error}\n` lines of a validation-error list. -/
def errorLines (errors : List String) : String :=
  String.join (errors.map (fun e => "• " ++ e ++ "\n"))

/-- `OrchestratorService.handleTicketVerificationWithContext`. -/
def handleTicketVerificationWithContext (env : OrchestratorEnv) (st : ChatState) :
    ChatState × Reply :=
  let result := env.ticketImage
  let st' :=
    match result.bet with
    | some bet =>
        if result.success && result.ticketId != "" then
          setLastVerifiedTicket st result.ticketId bet
        else st
    | none => st
  (st', Reply.ticketImage result.formatted result.success)

/-- `OrchestratorService.handleTicketVerificationByText`. -/
def handleTicketVerificationByText (ledger : List Bet) (st : ChatState)
    (ticketId userQuestion : String) : ChatState × Reply :=
  match (findBetByLocalId ledger ticketId).bet with
  | none => (st, Reply.lit (betNotFoundMsg ticketId))
  | some bet =>
      (setLastVerifiedTicket st ticketId bet,
       Reply.betResponse (formatBetResponse bet userQuestion) true)

/-- `OrchestratorService.processKYCFrontDocument`. -/
def processKYCFrontDocument (players : List Player) (env : OrchestratorEnv)
    (st : ChatState) (playerId imageBase64 : String) : ChatState × String :=
  let result := verifyFrontDocument players env.front playerId
  if ¬result.success then
    (st, "❌ **Problema con el documento frontal**\n\n"
      ++ errorLines result.validationErrors
      ++ "\nPor favor, envía una nueva foto del **frente de tu cédula**.")
  else
    (updateKYCFrontDocument st
      { documentNumber := result.documentNumber
        fullName := result.fullName
        dateOfBirth := result.dateOfBirth
        frontImageBase64 := imageBase64 },
     "✅ **Documento frontal verificado**\n\n**Datos extraídos:**\n• Número: "
      ++ result.documentNumber
      ++ "\n• Nombre: " ++ jsOrS result.fullName "N/A" ++ "\n"
      ++ (if result.dateOfBirth ≠ "" then
            "• Fecha de nacimiento: " ++ result.dateOfBirth ++ "\n" else "")
      ++ "\n---\n\n📸 Ahora envía la **foto del reverso de tu cédula**.")

/-- `OrchestratorService.processKYCBackDocument`. -/
def processKYCBackDocument (env : OrchestratorEnv) (st : ChatState)
    (imageBase64 : String) : ChatState × String :=
  let result := verifyBackDocument env.back
  if ¬result.success then
    (st, "❌ **Problema con el reverso del documento**\n\n"
      ++ errorLines result.validationErrors
      ++ "\nPor favor, envía una nueva foto del **reverso de tu cédula**.")
  else
    (updateKYCBackDocument st imageBase64,
     "✅ **Reverso del documento verificado**\n\n---\n\n🤳 Ahora envía una **selfie sosteniendo tu cédula**.\n\n**Consejos:**\n• Sostén la cédula junto a tu rostro\n• Asegúrate de que ambos (rostro y cédula) sean visibles\n• Buena iluminación ayuda a la verificación")

/-- The forced-restart reply of the selfie stage. -/
def kycRestartMsg : String :=
  "❌ Hubo un problema con tu verificación. Por favor, comienza de nuevo enviando la **foto del frente de tu cédula**."

/-- `OrchestratorService.processKYCSelfie`: re-reads the stored KYC state,
forces a full reset when the stage-1 artifacts are gone, otherwise verifies
the selfie, writes the verification flag back and completes the process. -/
def processKYCSelfie (env : OrchestratorEnv) (st : ChatState)
    (playerId _imageBase64 : String) : ChatState × String :=
  match st.session.kycState with
  | none => (clearKYCState st, kycRestartMsg)
  | some kycState =>
      if kycState.frontImageBase64 = "" ∨ kycState.documentNumber = "" then
        (clearKYCState st, kycRestartMsg)
      else
        let result := verifySelfieWithDocument env.selfie
        if ¬result.success then
          (st, "❌ **Problema con la selfie**\n\n"
            ++ errorLines result.validationErrors
            ++ "\nPor favor, envía una nueva **selfie sosteniendo tu cédula**.")
        else
          let updateResult := setPlayerVerified env.setVerifiedOk playerId kycState.documentNumber
          if ¬updateResult.success then
            (st, "✅ Verificación completada pero hubo un problema al actualizar tu cuenta. Por favor, contacta a soporte.")
          else
            (completeKYCProcess st,
             "✅ **¡Verificación KYC Exitosa!**\n\n**Documento verificado:**\n• Número: "
              ++ kycState.documentNumber
              ++ "\n• Nombre: " ++ kycState.fullName ++ "\n"
              ++ (if kycState.dateOfBirth ≠ "" then
                    "• Fecha de nacimiento: " ++ kycState.dateOfBirth ++ "\n" else "")
              ++ "🎉 **¡Tu cuenta ha sido verificada correctamente!**\n\nAhora tienes acceso completo a todas las funciones de Sorti365.")

/-- The already-verified refusal of the KYC gate. -/
def kycAlreadyVerifiedMsg (playerName : String) : String :=
  "¡Hola " ++ playerName ++ "! Tu cuenta ya se encuentra **verificada** ✅\n\nNo necesitas realizar el proceso de verificación KYC nuevamente.\n\n¿Hay algo más en lo que pueda ayudarte?\n\n• Verificar tickets de apuestas\n• Consultas sobre tu cuenta"

/-- `OrchestratorService.handleKYCFlow`: account gating, then stage dispatch
on the stored KYC step. -/
def handleKYCFlow (players : List Player) (env : OrchestratorEnv) (st : ChatState)
    (playerId : Option String) (imageBase64 : Option String) : ChatState × String :=
  match playerId with
  | none => (st, "Para verificar tu identidad, necesitas estar logueado en tu cuenta.")
  | some pid =>
      let playerResult := findPlayerByAccountPlayerId players pid
      match playerResult.player with
      | none =>
          (st, "No pude verificar tu cuenta en nuestro sistema. Por favor, asegúrate de estar logueado correctamente.")
      | some player =>
          let playerName := getPlayerDisplayName player
          if isPlayerVerified player then
            (st, kycAlreadyVerifiedMsg playerName)
          else if st.session.kycState = none ∧ imageBase64 = none then
            (initKYCProcess st,
             "¡Hola " ++ playerName ++ "! Para iniciar la verificación KYC, necesito que envíes los siguientes documentos:\n\n1️⃣ **Foto del frente de tu cédula** (documento de identidad)\n2️⃣ **Foto del reverso de tu cédula**\n3️⃣ **Selfie sosteniendo tu cédula**\n\nComencemos con la foto del **frente de tu cédula**. Por favor envíala ahora.")
          else
            let st₁ := if st.session.kycState = none then initKYCProcess st else st
            let kycState := (st.session.kycState).getD initialKYCState
            match imageBase64 with
            | none =>
                (st₁, match kycState.currentStep with
                  | KYCStep.front_document =>
                      playerName ++ ", estamos esperando la **foto del frente de tu cédula**. Por favor envíala para continuar."
                  | KYCStep.back_document =>
                      playerName ++ ", estamos esperando la **foto del reverso de tu cédula**. Por favor envíala para continuar."
                  | KYCStep.selfie =>
                      playerName ++ ", estamos esperando tu **selfie sosteniendo la cédula**. Por favor envíala para completar la verificación."
                  | _ => playerName ++ ", ¿en qué puedo ayudarte?")
            | some img =>
                match kycState.currentStep with
                | KYCStep.front_document => processKYCFrontDocument players env st₁ pid img
                | KYCStep.not_started => processKYCFrontDocument players env st₁ pid img
                | KYCStep.back_document => processKYCBackDocument env st₁ img
                | KYCStep.selfie => processKYCSelfie env st₁ pid img
                | KYCStep.completed =>
                    (st₁, "¡" ++ playerName ++ ", tu verificación KYC ya fue completada! ✅")

/-- `OrchestratorService.handleGeneralQuery`. -/
def handleGeneralQuery (ledger : List Bet) (env : OrchestratorEnv)
    (text : String) (images : List String) : Reply :=
  match extractTicketId text with
  | some ticketId =>
      match (findBetByLocalId ledger ticketId).bet with
      | some bet => Reply.betResponse (formatBetResponse bet text) false
      | none => Reply.lit (betNotFoundMsg ticketId)
  | none =>
      if !images.isEmpty && env.generalVision.success then
        Reply.visionRaw env.generalVision.rawResponse
      else if text != "" then
        if ["ticket", "apuesta", "boleto", "jugada"].any
            (fun kw => jsIncludes (jsToLower text) kw) then
          Reply.lit "¿Quieres que revise un ticket? Por favor proporciona el ID del ticket (el número que aparece en tu comprobante) o envíame una foto del mismo."
        else
          match env.nlp with
          | some nlpResult =>
              if nlpResult.intentType = "greeting" then
                Reply.lit "¡Hola! Soy el asistente virtual de Sorti365. ¿En qué puedo ayudarte hoy? Puedo ayudarte a:\n\n• Verificar tickets de apuestas (envía el ID o una foto)\n• Verificar tu identidad (KYC)\n• Responder preguntas sobre tu cuenta"
              else if nlpResult.intentType = "farewell" then
                Reply.lit "¡Hasta luego! Si necesitas algo más, no dudes en escribirme. ¡Buena suerte! 🍀"
              else if nlpResult.intentType = "account_query" then
                Reply.lit "Para consultas sobre tu cuenta, por favor proporciona más detalles sobre lo que necesitas. Puedo ayudarte con:\n\n• Estado de tu cuenta\n• Historial de apuestas\n• Verificación de identidad"
              else if nlpResult.intentType = "bet_history" then
                Reply.lit "Para ver tu historial de apuestas, por favor accede a tu cuenta en la aplicación de Sorti365. Si tienes un ticket específico que quieres verificar, proporciona el ID o envíame una foto del mismo."
              else if nlpResult.intentType = "complaint" then
                Reply.lit "Lamento que estés teniendo problemas. Por favor, describe tu situación con más detalle para que pueda ayudarte mejor. Si es un problema urgente, te recomiendo contactar a nuestro equipo de soporte."
              else
                Reply.lit ("Entiendo que quieres saber sobre \"" ++ text ++ "\". ¿Podrías darme más detalles? Puedo ayudarte con:\n\n• Verificación de tickets (proporciona el ID)\n• Verificación de identidad (KYC)\n• Información general sobre Sorti365")
          | none =>
              Reply.lit "Hola, soy el asistente de Sorti365. ¿En qué puedo ayudarte? Puedes enviarme el ID de un ticket o una foto para verificarlo, o iniciar tu proceso de verificación de identidad."
      else
        Reply.lit "Hola, soy el asistente de Sorti365. ¿En qué puedo ayudarte? Puedes enviarme el ID de un ticket o una foto para verificarlo, o iniciar tu proceso de verificación de identidad."

/-- Tail of every `processMessage` branch: persist the assistant reply, then
return it with the flow type. -/
def finishTurn (st : ChatState) (response : Reply) (flowType : FlowType) :
    Except String (Reply × FlowType × ChatState) :=
  match addMessage st MessageRole.assistant response with
  | Except.error e => Except.error e
  | Except.ok st' => Except.ok (response, flowType, st')

/-- The fixed topic-exit acknowledgement. -/
def exitAckMsg : String :=
  "¡Perfecto! He salido del contexto del ticket. ¿En qué más puedo ayudarte?\n\n• Verificar otro ticket (envía foto o ID)\n• Verificación de identidad (KYC)\n• Consulta general"

/-- `ProcessMessageDto` as the router consumes it (`images` holds the base64
payloads). -/
structure ProcessMessageDto where
  playerId : Option String := none
  content : String := ""
  images : List String := []
  deriving DecidableEq, Repr

/-- Flow classification of `processMessage`: text-intent classification first,
then image-based vision classification if the text left the flow at
`general_query`. -/
def classifyFlow (env : OrchestratorEnv) (hasText hasImages : Bool) : FlowType :=
  let flowType₁ :=
    if hasText then
      match env.intent with
      | some intent =>
          if intent.type = "ticket_verification" then FlowType.ticket_verification
          else if intent.type = "kyc_start" ∨ intent.type = "kyc_upload" then
            FlowType.kyc_document
          else FlowType.general_query
      | none => FlowType.general_query
    else FlowType.general_query
  if hasImages && flowType₁ == FlowType.general_query
      && env.imageVision.success then
    let responseText := jsToLower env.imageVision.rawResponse
    if jsIncludes responseText "ticket" || jsIncludes responseText "apuesta"
        || jsIncludes responseText "boleto" then
      FlowType.ticket_verification
    else if jsIncludes responseText "cédula" || jsIncludes responseText "cedula"
        || jsIncludes responseText "documento" || jsIncludes responseText "identidad" then
      FlowType.kyc_document
    else if jsIncludes responseText "selfie" || jsIncludes responseText "rostro"
        || jsIncludes responseText "persona" then
      FlowType.kyc_selfie
    else flowType₁
  else flowType₁

/-- The `switch (flowType)` dispatch block of `processMessage`: run the
classified flow and collect the updated state and reply. -/
def dispatchFlow (players : List Player) (ledger : List Bet)
    (env : OrchestratorEnv) (st : ChatState) (dto : ProcessMessageDto)
    (hasText hasImages : Bool) (flowType : FlowType) : ChatState × Reply :=
  match flowType with
  | FlowType.ticket_verification =>
      if hasImages then
        handleTicketVerificationWithContext env st
      else if hasText then
        match extractTicketId dto.content with
        | some ticketIdFromText =>
            handleTicketVerificationByText ledger st ticketIdFromText dto.content
        | none =>
            (st, Reply.lit "Para verificar tu ticket, por favor envía el número de ticket (ej: 0000085426) o una foto del mismo.")
      else
        (st, Reply.lit "Para verificar tu ticket, por favor envía el número de ticket o una foto del mismo.")
  | FlowType.kyc_document =>
      let r := handleKYCFlow players env st dto.playerId
        (if hasImages then dto.images.head? else none)
      (r.1, Reply.lit r.2)
  | FlowType.kyc_selfie =>
      let r := handleKYCFlow players env st dto.playerId
        (if hasImages then dto.images.head? else none)
      (r.1, Reply.lit r.2)
  | FlowType.general_query =>
      (st, handleGeneralQuery ledger env dto.content dto.images)

/-- `OrchestratorService.processMessage` (`processTurn` of the spec): topic
exit, ticket follow-up, intent/vision flow classification, dispatch, and the
final history append. -/
def processMessage (players : List Player) (ledger : List Bet)
    (env : OrchestratorEnv) (st : ChatState) (dto : ProcessMessageDto) :
    Except String (Reply × FlowType × ChatState) :=
  let hasImages := !dto.images.isEmpty
  let hasText := jsTrim dto.content != ""
  let textLower := jsToLower dto.content
  let ticketContext := st.session.lastVerifiedTicket
  if ticketContext.isSome && hasText
      && EXIT_CONTEXT_KEYWORDS.any (fun kw => jsIncludes textLower kw) then
    finishTurn (clearTicketContext st) (Reply.lit exitAckMsg) FlowType.general_query
  else if ticketContext.isSome && hasText && !hasImages
      && TICKET_FOLLOWUP_KEYWORDS.any (fun kw => jsIncludes textLower kw) then
    finishTurn st (Reply.grounded env.followUpAnswer) FlowType.ticket_verification
  else
    let flowType := classifyFlow env hasText hasImages
    let d := dispatchFlow players ledger env st dto hasText hasImages flowType
    finishTurn d.1 d.2 flowType

/-! ## Observations on formatted bet responses -/

/-- Parts that belong to the why-did-I-lose explanation heuristic. -/
def isLossBreakdownPart : RespPart → Bool
  | RespPart.lossExplanationHeader _ => true
  | RespPart.lossEventItem _ _ _ _ => true
  | RespPart.multipleBetNote _ => true
  | _ => false

/-- Is this part the requires-human-review notice? -/
def isHumanAttentionPart : RespPart → Bool
  | RespPart.humanAttentionNotice _ => true
  | _ => false

/-- The legs a formatted response names in its loss breakdown, as
(event name, selection, market) triples. -/
def lossBreakdownLegs (parts : List RespPart) : List (String × String × String) :=
  parts.filterMap (fun p =>
    match p with
    | RespPart.lossEventItem _ n s m => some (n, s, m)
    | _ => none)

theorem betResponseBase_plain (summary : BetSummary) :
    ∀ p ∈ betResponseBase summary,
      isLossBreakdownPart p = false ∧ p ≠ RespPart.noCancellationNote ∧
      isHumanAttentionPart p = false := by
  intro p hp
  by_cases hres : summary.isResulted <;> cases p <;>
    simp_all [betResponseBase, isLossBreakdownPart, isHumanAttentionPart]

theorem lossBreakdownLegs_betResponseBase (summary : BetSummary) :
    lossBreakdownLegs (betResponseBase summary) = [] := by
  rw [List.eq_nil_iff_forall_not_mem]
  intro x hx
  simp only [lossBreakdownLegs, List.mem_filterMap] at hx
  obtain ⟨p, hp, hmatch⟩ := hx
  have := (betResponseBase_plain summary p hp).1
  cases p <;> simp_all [isLossBreakdownPart]

theorem lossBreakdownLegs_enumMap (l : List EventSummary) :
    lossBreakdownLegs (l.enum.map (fun p =>
      RespPart.lossEventItem p.1 p.2.sportEventName p.2.selectionName p.2.marketName)) =
    l.map (fun e => (e.sportEventName, e.selectionName, e.marketName)) := by
  rw [lossBreakdownLegs, List.filterMap_map]
  have : l.enum.map Prod.snd = l := List.enum_map_snd l
  calc List.filterMap _ l.enum
      = l.enum.map (fun p => (p.2.sportEventName, p.2.selectionName, p.2.marketName)) := by
        rw [← List.filterMap_eq_map]; rfl
    _ = (l.enum.map Prod.snd).map (fun e => (e.sportEventName, e.selectionName, e.marketName)) := by
        rw [List.map_map]; rfl
    _ = l.map (fun e => (e.sportEventName, e.selectionName, e.marketName)) := by rw [this]

/-! ## Claim C4 -/

theorem findBet_eq_of_uniq (ledger : List Bet) (b : Bet) (lookupId : String)
    (hmem : b ∈ ledger)
    (hb : b.betLocalId = lookupId ∨ b.betLocalId = stripLeadingZeros lookupId
      ∨ b.betLocalId = padStart10 lookupId)
    (huniq : ∀ b' ∈ ledger,
      (b'.betLocalId = lookupId ∨ b'.betLocalId = stripLeadingZeros lookupId
        ∨ b'.betLocalId = padStart10 lookupId) → b' = b) :
    findBetByLocalId ledger lookupId = { found := true, bet := some b } := by
  rcases hfind : ledger.find? (fun x => decide (x.betLocalId = lookupId
      ∨ x.betLocalId = stripLeadingZeros lookupId
      ∨ x.betLocalId = padStart10 lookupId)) with _ | c
  · exfalso
    have hnone := List.find?_eq_none.mp hfind b hmem
    simp only [decide_eq_true_eq] at hnone
    exact hnone hb
  · have hc := List.find?_some hfind
    have hcm := List.mem_of_find?_eq_some hfind
    simp only [decide_eq_true_eq] at hc
    have hcb : c = b := huniq c hcm hc
    subst hcb
    simp only [findBetByLocalId]
    rw [hfind]

/-- C4: a bet stored under the zero-padded id `"0000085426"` is found by the
bare id `"85426"` and the padded id `"0000085426"` — but NOT by `"85426 "`
with trailing whitespace: `findBetByLocalId` tries the id literally, with
leading zeros stripped, and padded to 10 digits, and never trims whitespace
(`"85426 "` pads to `"000085426 "`).  This closed counterexample refutes the
claim's whitespace conjunct while exhibiting that the other two forms do
resolve. -/
theorem C4_counterexample :
    (findBetByLocalId [{ betLocalId := "0000085426" }] "85426").bet
        = some { betLocalId := "0000085426" } ∧
    (findBetByLocalId [{ betLocalId := "0000085426" }] "0000085426").bet
        = some { betLocalId := "0000085426" } ∧
    (findBetByLocalId [{ betLocalId := "0000085426" }] "85426 ").found = false ∧
    padStart10 "85426 " = "000085426 " := by
  refine ⟨by rfl, by rfl, by rfl, by rfl⟩

/-- C4 (amended): in a ledger holding a bet under the id `"0000085426"` (and
no other bet under `"85426"` or `"0000085426"`), lookup by `"85426"` and by
`"0000085426"` both return that same bet — id normalization covers the bare
and zero-padded forms, but not whitespace-bearing forms. -/
theorem C4_lookup_normalization (ledger : List Bet) (b : Bet)
    (hmem : b ∈ ledger) (hid : b.betLocalId = "0000085426")
    (huniq : ∀ b' ∈ ledger,
      (b'.betLocalId = "85426" ∨ b'.betLocalId = "0000085426") → b' = b) :
    findBetByLocalId ledger "85426" = { found := true, bet := some b } ∧
    findBetByLocalId ledger "0000085426" = { found := true, bet := some b } := by
  have hstrip₁ : stripLeadingZeros "85426" = "85426" := by decide
  have hpad₁ : padStart10 "85426" = "0000085426" := by decide
  have hstrip₂ : stripLeadingZeros "0000085426" = "85426" := by decide
  have hpad₂ : padStart10 "0000085426" = "0000085426" := by decide
  constructor
  · exact findBet_eq_of_uniq ledger b "85426" hmem
      (by rw [hstrip₁, hpad₁]; exact Or.inr (Or.inr hid))
      (fun b' hb' h => huniq b' hb' (by rw [hstrip₁, hpad₁] at h; tauto))
  · exact findBet_eq_of_uniq ledger b "0000085426" hmem
      (by rw [hstrip₂, hpad₂]; exact Or.inl hid)
      (fun b' hb' h => huniq b' hb' (by rw [hstrip₂, hpad₂] at h; tauto))

/-- C4 witness: the amended lookup theorem applied to a concrete two-bet
ledger. -/
theorem C4_lookup_normalization_witness :
    findBetByLocalId [{ betLocalId := "0000000001" }, { betLocalId := "0000085426" }] "85426"
      = { found := true, bet := some { betLocalId := "0000085426" } } ∧
    findBetByLocalId [{ betLocalId := "0000000001" }, { betLocalId := "0000085426" }] "0000085426"
      = { found := true, bet := some { betLocalId := "0000085426" } } :=
  C4_lookup_normalization
    [{ betLocalId := "0000000001" }, { betLocalId := "0000085426" }]
    { betLocalId := "0000085426" }
    (by decide) (by decide) (by decide)

/-! ## Claim C5 -/

/-- A concrete bet whose OVERALL result is `Void` with a single lost leg:
`requiresHumanAttention` only checks the overall result against
`Canceled`/`Cancelled`, so this ticket is not escalated. -/
def betOverallVoid : Bet :=
  { betLocalId := "0000000042"
    result := "Void"
    betType := "Multiple"
    isResulted := true
    events := [{ sportEventName := some { es := "Real Madrid vs Barcelona", en := "" }
                 tournamentName := some { es := "La Liga", en := "" }
                 nameMarket := some { es := "1X2", en := "" }
                 outcome := some { odds := 2, outcomeName := some { es := "Real Madrid", en := "" } }
                 result := "Lost"
                 isResulted := true }] }

/-- C5 counterexample: a ticket whose OVERALL result is `Void` (no canceled
leg) is NOT routed to the human-review notice — the win/loss heuristics below
it still run: asked "por que perdi", the formatted reply contains the
losing-legs breakdown and no requires-human-review notice, contradicting the
claim's "overall result … canceled or void" scope. -/
theorem C5_counterexample :
    (requiresHumanAttention betOverallVoid).requires = false ∧
    isAskingAboutLoss "por que perdi" = true ∧
    (formatBetResponse betOverallVoid "por que perdi").any isLossBreakdownPart = true ∧
    (formatBetResponse betOverallVoid "por que perdi").any isHumanAttentionPart = false := by
  refine ⟨by rfl, by decide, by decide, by decide⟩

/-- C5 (amended): whenever `requiresHumanAttention` flags the bet — overall
result `Canceled`/`Cancelled`, or some leg `Canceled`/`Cancelled`/`Void`
(overall `Void` alone does not trigger it) — the formatted response ends with
the requires-human-review notice and contains neither the losing-legs
breakdown nor the no-cancellation note. -/
theorem C5_escalation_suppresses_heuristics (bet : Bet) (question : String)
    (h : (requiresHumanAttention bet).requires = true) :
    formatBetResponse bet question =
      betResponseBase (getBetSummary bet)
        ++ [RespPart.humanAttentionNotice (requiresHumanAttention bet).reason] ∧
    (∀ p ∈ formatBetResponse bet question,
      isLossBreakdownPart p = false ∧ p ≠ RespPart.noCancellationNote) ∧
    RespPart.humanAttentionNotice (requiresHumanAttention bet).reason
      ∈ formatBetResponse bet question := by
  have h1 : formatBetResponse bet question =
      betResponseBase (getBetSummary bet)
        ++ [RespPart.humanAttentionNotice (requiresHumanAttention bet).reason] := by
    simp [formatBetResponse, h]
  refine ⟨h1, ?_, ?_⟩
  · intro p hp
    rw [h1] at hp
    rcases List.mem_append.mp hp with hp | hp
    · have hplain := betResponseBase_plain (getBetSummary bet) p hp
      exact ⟨hplain.1, hplain.2.1⟩
    · simp only [List.mem_singleton] at hp
      subst hp
      simp [isLossBreakdownPart]
  · rw [h1]
    simp

/-- A concrete canceled ticket: overall result `Canceled` with one lost leg. -/
def betCanceled : Bet :=
  { betOverallVoid with result := "Canceled" }

/-- C5 witness: the amended escalation theorem applied to the concrete
canceled ticket, with the suppressed heuristics evaluated. -/
theorem C5_escalation_witness :
    (requiresHumanAttention betCanceled).requires = true ∧
    ((formatBetResponse betCanceled "por que perdi").any isLossBreakdownPart = false ∧
      RespPart.humanAttentionNotice (requiresHumanAttention betCanceled).reason
        ∈ formatBetResponse betCanceled "por que perdi") := by
  have h := C5_escalation_suppresses_heuristics betCanceled "por que perdi" (by decide)
  refine ⟨by decide, ?_, h.2.2⟩
  rw [List.any_eq_false]
  intro p hp
  simp [(h.2.1 p hp).1]

/-! ## Claim C6 -/

/-- C6: for a non-escalated ticket and a question matching the
why-did-I-lose lexicon, the loss breakdown appended to the formatted response
names exactly the legs whose result is `Lost` — each with its selection and
market — and a leg appears there iff it is a lost leg of the ticket (so never
a winning one). -/
theorem C6_loss_breakdown_exactly_lost_legs (bet : Bet) (question : String)
    (hEsc : (requiresHumanAttention bet).requires = false)
    (hAsk : isAskingAboutLoss question = true) (hQ : question ≠ "") :
    lossBreakdownLegs (formatBetResponse bet question) =
      ((getBetSummary bet).events.filter (fun e => e.result = "Lost")).map
        (fun e => (e.sportEventName, e.selectionName, e.marketName)) ∧
    (∀ n s m, (n, s, m) ∈ lossBreakdownLegs (formatBetResponse bet question) ↔
      ∃ e ∈ (getBetSummary bet).events,
        e.result = "Lost" ∧ e.sportEventName = n ∧ e.selectionName = s ∧ e.marketName = m) := by
  have hmain : lossBreakdownLegs (formatBetResponse bet question) =
      ((getBetSummary bet).events.filter (fun e => e.result = "Lost")).map
        (fun e => (e.sportEventName, e.selectionName, e.marketName)) := by
    rw [formatBetResponse]
    simp only [hEsc, if_false, Bool.false_eq_true]
    rw [lossBreakdownLegs, List.filterMap_append, List.filterMap_append]
    rw [← lossBreakdownLegs, ← lossBreakdownLegs, ← lossBreakdownLegs]
    rw [lossBreakdownLegs_betResponseBase, List.nil_append]
    have hcancel : lossBreakdownLegs
        (if question ≠ "" ∧ isAskingAboutCancellation question
         then [RespPart.noCancellationNote] else []) = [] := by
      split <;> simp [lossBreakdownLegs]
    rw [hcancel, List.append_nil]
    simp only [hQ, hAsk, ne_eq, not_false_iff, true_and, and_true, if_true]
    by_cases hlen : ((getBetSummary bet).events.filter (fun e => e.result = "Lost")).length > 0
    · simp only [hlen, if_true]
      rw [lossBreakdownLegs, List.filterMap_append, List.filterMap_append]
      rw [← lossBreakdownLegs, ← lossBreakdownLegs, ← lossBreakdownLegs]
      rw [lossBreakdownLegs_enumMap]
      have hhead : lossBreakdownLegs [RespPart.lossExplanationHeader
          ((getBetSummary bet).events.filter (fun e => e.result = "Lost")).length] = [] := by
        simp [lossBreakdownLegs]
      have hnote : lossBreakdownLegs
          (if (getBetSummary bet).betType = "Multiple" ∨ (getBetSummary bet).betType = "Parlay"
           then [RespPart.multipleBetNote (getBetSummary bet).betType] else []) = [] := by
        split <;> simp [lossBreakdownLegs]
      rw [hhead, hnote, List.nil_append, List.append_nil]
    · simp only [hlen, if_false]
      have : ((getBetSummary bet).events.filter (fun e => e.result = "Lost")) = [] := by
        simpa using Nat.eq_zero_of_not_pos hlen
      simp [lossBreakdownLegs, this]
  refine ⟨hmain, ?_⟩
  intro n s m
  rw [hmain]
  simp only [List.mem_map, List.mem_filter, Prod.mk.injEq, decide_eq_true_eq]
  constructor
  · rintro ⟨e, ⟨hmem, hlost⟩, hn, hs, hm⟩
    exact ⟨e, hmem, hlost, hn, hs, hm⟩
  · rintro ⟨e, hmem, hlost, hn, hs, hm⟩
    exact ⟨e, ⟨hmem, hlost⟩, hn, hs, hm⟩

/-- A concrete lost ticket with one lost and one won leg, not escalated. -/
def betOneLostOneWon : Bet :=
  { betLocalId := "0000000077"
    result := "Lost"
    betType := "Multiple"
    isResulted := true
    events := [{ sportEventName := some { es := "Lakers vs Celtics", en := "" }
                 tournamentName := some { es := "NBA", en := "" }
                 nameMarket := some { es := "Hándicap", en := "" }
                 outcome := some { odds := mkRat 185 100, outcomeName := some { es := "Lakers +5.5", en := "" } }
                 result := "Won"
                 isResulted := true },
               { sportEventName := some { es := "Real Madrid vs Barcelona", en := "" }
                 tournamentName := some { es := "La Liga", en := "" }
                 nameMarket := some { es := "1X2", en := "" }
                 outcome := some { odds := 2, outcomeName := some { es := "Real Madrid", en := "" } }
                 result := "Lost"
                 isResulted := true }] }

/-- C6 witness: on the concrete two-leg ticket, the breakdown names exactly
the lost leg (selection `Real Madrid`, market `1X2`), never the won one. -/
theorem C6_loss_breakdown_witness :
    lossBreakdownLegs (formatBetResponse betOneLostOneWon "por que perdi")
      = [("Real Madrid vs Barcelona", "Real Madrid", "1X2")] := by
  have h := C6_loss_breakdown_exactly_lost_legs betOneLostOneWon "por que perdi"
    (by decide) (by decide) (by decide)
  exact h.1.trans (by decide)

/-! ## Claim C3 -/

theorem verifyFrontDocument_success_iff_isEmpty (players : List Player)
    (env : FrontDocEnv) (pid : String) :
    (verifyFrontDocument players env pid).success
      = (verifyFrontDocument players env pid).validationErrors.isEmpty := by
  rw [verifyFrontDocument]
  repeat' split
  all_goals rfl

theorem verifyBackDocument_failure_has_errors (env : BackDocEnv)
    (hfail : (verifyBackDocument env).success = false) :
    (verifyBackDocument env).validationErrors ≠ [] := by
  rw [verifyBackDocument] at hfail ⊢
  repeat' split
  all_goals try simp_all
  all_goals (split <;> simp_all)

theorem verifySelfie_failure_has_errors_of_vision_ok (env : SelfieEnv)
    (hvision : env.vision.success = true)
    (hfail : (verifySelfieWithDocument env).success = false) :
    (verifySelfieWithDocument env).validationErrors ≠ [] := by
  intro herr
  rcases hparse : env.parsed with _ | _ | data
  · rw [verifySelfieWithDocument, hparse] at hfail
    simp [hvision] at hfail
    exact absurd hfail (by norm_num [mkRat])
  · rw [verifySelfieWithDocument, hparse] at hfail
    simp [hvision] at hfail
    exact absurd hfail (by norm_num [mkRat])
  · rw [verifySelfieWithDocument, hparse] at hfail herr
    simp only [hvision, if_true] at hfail herr
    simp only [List.append_eq_nil] at herr
    obtain ⟨⟨⟨⟨h₁, h₂⟩, h₃⟩, h₄⟩, h₅⟩ := herr
    simp only [h₁, h₂, h₃, h₄, h₅, List.append_nil, List.isEmpty_nil, Bool.true_and,
      decide_eq_false_iff_not, not_le] at hfail
    rw [if_pos hfail] at h₃
    simp at h₃

/-- C3 counterexample: a selfie-stage execution whose vision call fails
returns `success = false` with an EMPTY validation-error list (no error is
accumulated on that path), contradicting the claim's "non-empty accumulated
validation-error list" for every failed stage execution. -/
theorem C3_counterexample :
    verifySelfieWithDocument
        { vision := { success := false, rawResponse := "" }, parsed := JsonOutcome.noJson }
      = { success := false, facesDetected := 0, isHoldingDocument := false,
          faceMatchConfidence := 0, validationErrors := [], confidence := 0 } := by
  decide

/-- C3 (amended): a failed KYC stage execution never advances the session's
stage — the orchestrator leaves the state untouched on front/back/selfie
failure — and the result's validation-error list is non-empty on every failed
front- or back-document stage, and on every failed selfie stage whose vision
call succeeded (a selfie stage whose vision call itself fails yields
`success = false` with an empty list). -/
theorem C3_failed_stage_keeps_stage (players : List Player) (env : OrchestratorEnv)
    (st : ChatState) (pid img : String) :
    ((verifyFrontDocument players env.front pid).success = false →
      (verifyFrontDocument players env.front pid).validationErrors ≠ [] ∧
      (processKYCFrontDocument players env st pid img).1 = st) ∧
    ((verifyBackDocument env.back).success = false →
      (verifyBackDocument env.back).validationErrors ≠ [] ∧
      (processKYCBackDocument env st img).1 = st) ∧
    (env.selfie.vision.success = true →
      (verifySelfieWithDocument env.selfie).success = false →
      (verifySelfieWithDocument env.selfie).validationErrors ≠ []) ∧
    (∀ ks, st.session.kycState = some ks → ks.frontImageBase64 ≠ "" →
      ks.documentNumber ≠ "" →
      (verifySelfieWithDocument env.selfie).success = false →
      (processKYCSelfie env st pid img).1 = st) := by
  refine ⟨?_, ?_, ?_, ?_⟩
  · intro hfail
    constructor
    · have h := verifyFrontDocument_success_iff_isEmpty players env.front pid
      rw [hfail] at h
      intro hnil
      rw [hnil] at h
      simp at h
    · rw [processKYCFrontDocument]
      simp [hfail]
  · intro hfail
    refine ⟨verifyBackDocument_failure_has_errors env.back hfail, ?_⟩
    rw [processKYCBackDocument]
    simp [hfail]
  · exact verifySelfie_failure_has_errors_of_vision_ok env.selfie
  · intro ks hks hfront hdoc hfail
    rw [processKYCSelfie, hks]
    simp [hfront, hdoc, hfail]

/-- C3 witness: the amended theorem applied to a concrete front-document
stage whose image yields no document number: the errors are non-empty and the
session (at stage `front_document`) is unchanged. -/
theorem C3_failed_stage_witness :
    (verifyFrontDocument []
        { vision := { success := true, extractedData := none },
          ocr := { success := false } } "p1").validationErrors ≠ [] ∧
    (processKYCFrontDocument []
        { intent := none
          imageVision := { success := false, rawResponse := "" }
          followUpAnswer := ""
          ticketImage := { success := false, formatted := "" }
          generalVision := { success := false, rawResponse := "" }
          nlp := none
          front := { vision := { success := true, extractedData := none },
                     ocr := { success := false } }
          back := { vision := { success := false, rawResponse := "" },
                    parsed := JsonOutcome.noJson }
          selfie := { vision := { success := false, rawResponse := "" },
                      parsed := JsonOutcome.noJson }
          setVerifiedOk := false }
        { session := { status := SessionStatus.active, context := SessionContext.kyc,
                       kycState := some { currentStep := KYCStep.front_document } },
          messages := [] } "p1" "img").1
      = { session := { status := SessionStatus.active, context := SessionContext.kyc,
                       kycState := some { currentStep := KYCStep.front_document } },
          messages := [] } :=
  (C3_failed_stage_keeps_stage []
    { intent := none
      imageVision := { success := false, rawResponse := "" }
      followUpAnswer := ""
      ticketImage := { success := false, formatted := "" }
      generalVision := { success := false, rawResponse := "" }
      nlp := none
      front := { vision := { success := true, extractedData := none },
                 ocr := { success := false } }
      back := { vision := { success := false, rawResponse := "" },
                parsed := JsonOutcome.noJson }
      selfie := { vision := { success := false, rawResponse := "" },
                  parsed := JsonOutcome.noJson }
      setVerifiedOk := false }
    { session := { status := SessionStatus.active, context := SessionContext.kyc,
                   kycState := some { currentStep := KYCStep.front_document } },
      messages := [] } "p1" "img").1 (by decide)

/-! ## Claim C7 -/

/-- C7: the KYC gate — an account id that does not resolve to a known
identity record stops the pipeline with a generic account message, and an
already-verified record stops it with the already-verified message; in both
cases the session state (in particular `kycState`) is returned unchanged and
no stage executes. -/
theorem C7_kyc_gate (players : List Player) (env : OrchestratorEnv)
    (st : ChatState) (pid : String) (image : Option String) :
    ((findPlayerByAccountPlayerId players pid).player = none →
      handleKYCFlow players env st (some pid) image =
        (st, "No pude verificar tu cuenta en nuestro sistema. Por favor, asegúrate de estar logueado correctamente.")) ∧
    (∀ player, (findPlayerByAccountPlayerId players pid).player = some player →
      isPlayerVerified player = true →
      handleKYCFlow players env st (some pid) image =
        (st, kycAlreadyVerifiedMsg (getPlayerDisplayName player))) := by
  constructor
  · intro hnone
    rw [handleKYCFlow, hnone]
  · intro player hsome hver
    rw [handleKYCFlow, hsome]
    simp [hver]

/-- C7 witness: the gate applied to a concrete verified player — the flow
refuses with the already-verified message and the state is unchanged. -/
theorem C7_kyc_gate_witness :
    handleKYCFlow
        [{ accountPlayerId := "p7"
           personalInfo := { firstName := "Ana", lastName := "Ruiz" }
           verificationAndLocks := some { verify := true } }]
        { intent := none
          imageVision := { success := false, rawResponse := "" }
          followUpAnswer := ""
          ticketImage := { success := false, formatted := "" }
          generalVision := { success := false, rawResponse := "" }
          nlp := none
          front := { vision := { success := false, extractedData := none },
                     ocr := { success := false } }
          back := { vision := { success := false, rawResponse := "" },
                    parsed := JsonOutcome.noJson }
          selfie := { vision := { success := false, rawResponse := "" },
                      parsed := JsonOutcome.noJson }
          setVerifiedOk := false }
        { session := { status := SessionStatus.active, context := SessionContext.general },
          messages := [] }
        (some "p7") none
      = ({ session := { status := SessionStatus.active, context := SessionContext.general },
           messages := [] },
         kycAlreadyVerifiedMsg "Ana Ruiz") := by
  have h := (C7_kyc_gate
    [{ accountPlayerId := "p7"
       personalInfo := { firstName := "Ana", lastName := "Ruiz" }
       verificationAndLocks := some { verify := true } }]
    { intent := none
      imageVision := { success := false, rawResponse := "" }
      followUpAnswer := ""
      ticketImage := { success := false, formatted := "" }
      generalVision := { success := false, rawResponse := "" }
      nlp := none
      front := { vision := { success := false, extractedData := none },
                 ocr := { success := false } }
      back := { vision := { success := false, rawResponse := "" },
                parsed := JsonOutcome.noJson }
      selfie := { vision := { success := false, rawResponse := "" },
                  parsed := JsonOutcome.noJson }
      setVerifiedOk := false }
    { session := { status := SessionStatus.active, context := SessionContext.general },
      messages := [] }
    "p7" none).2
    { accountPlayerId := "p7"
      personalInfo := { firstName := "Ana", lastName := "Ruiz" }
      verificationAndLocks := some { verify := true } }
    (by decide) (by decide)
  rw [h]
  have : getPlayerDisplayName
      { accountPlayerId := "p7"
        personalInfo := { firstName := "Ana", lastName := "Ruiz" }
        verificationAndLocks := some { verify := true } } = "Ana Ruiz" := by decide
  rw [this]

/-! ## Claim C8 -/

/-- C8: a selfie-stage turn whose stored stage-1 artifacts are missing (no
stored front image or no stored document number — or no KYC state at all)
forces a full reset: the KYC state is cleared back to absent (the
not-started condition), the context returns to general, and the fixed restart
message is returned — no comparison is attempted. -/
theorem C8_selfie_missing_artifacts_resets (env : OrchestratorEnv)
    (st : ChatState) (pid img : String) (ks : KYCState)
    (hks : st.session.kycState = some ks)
    (hmissing : ks.frontImageBase64 = "" ∨ ks.documentNumber = "") :
    processKYCSelfie env st pid img = (clearKYCState st, kycRestartMsg) ∧
    (clearKYCState st).session.kycState = none ∧
    (clearKYCState st).session.context = SessionContext.general := by
  refine ⟨?_, by simp [clearKYCState], by simp [clearKYCState]⟩
  rw [processKYCSelfie, hks]
  rcases hmissing with h | h <;> simp [h]

/-- C8 witness: a concrete session stuck at the selfie stage with no stored
front image is reset to no KYC state. -/
theorem C8_selfie_missing_artifacts_witness :
    processKYCSelfie
        { intent := none
          imageVision := { success := false, rawResponse := "" }
          followUpAnswer := ""
          ticketImage := { success := false, formatted := "" }
          generalVision := { success := false, rawResponse := "" }
          nlp := none
          front := { vision := { success := false, extractedData := none },
                     ocr := { success := false } }
          back := { vision := { success := false, rawResponse := "" },
                    parsed := JsonOutcome.noJson }
          selfie := { vision := { success := true, rawResponse := "ok" },
                      parsed := JsonOutcome.noJson }
          setVerifiedOk := true }
        { session := { status := SessionStatus.active, context := SessionContext.kyc,
                       kycState := some { currentStep := KYCStep.selfie,
                                          documentNumber := "1712345678" } },
          messages := [] } "p8" "selfieimg"
      = ({ session := { status := SessionStatus.active, context := SessionContext.general,
                        kycState := none },
           messages := [] },
         kycRestartMsg) :=
  ((C8_selfie_missing_artifacts_resets
    { intent := none
      imageVision := { success := false, rawResponse := "" }
      followUpAnswer := ""
      ticketImage := { success := false, formatted := "" }
      generalVision := { success := false, rawResponse := "" }
      nlp := none
      front := { vision := { success := false, extractedData := none },
                 ocr := { success := false } }
      back := { vision := { success := false, rawResponse := "" },
                parsed := JsonOutcome.noJson }
      selfie := { vision := { success := true, rawResponse := "ok" },
                  parsed := JsonOutcome.noJson }
      setVerifiedOk := true }
    { session := { status := SessionStatus.active, context := SessionContext.kyc,
                   kycState := some { currentStep := KYCStep.selfie,
                                      documentNumber := "1712345678" } },
      messages := [] } "p8" "selfieimg"
    { currentStep := KYCStep.selfie, documentNumber := "1712345678" }
    (by decide) (Or.inl (by decide))).1 : _)

/-! ## Claim C10 -/

/-- C10: when the selfie vision call succeeds but its raw reply contains no
parseable JSON (or `JSON.parse` throws), `verifySelfieWithDocument` falls
back to `facesDetected = 1`, `isHoldingDocument = true`,
`faceMatchConfidence = 0.8` and returns `success = true` with an empty
validation-error list — and under that result the selfie stage completes the
KYC process (the account is marked verified) with no actual face-match
evidence. -/
theorem C10_unparseable_selfie_json_passes (env : SelfieEnv)
    (hok : env.vision.success = true)
    (hparse : env.parsed = JsonOutcome.noJson ∨ env.parsed = JsonOutcome.parseError) :
    verifySelfieWithDocument env =
      { success := true, facesDetected := 1, isHoldingDocument := true,
        faceMatchConfidence := mkRat 8 10, validationErrors := [],
        confidence := mkRat 7 10 } ∧
    (∀ (oenv : OrchestratorEnv) (st : ChatState) (pid img : String) (ks : KYCState),
      oenv.selfie = env → oenv.setVerifiedOk = true →
      st.session.kycState = some ks → ks.frontImageBase64 ≠ "" → ks.documentNumber ≠ "" →
      (processKYCSelfie oenv st pid img).1.session.kycState
        = some { ks with selfieVerified := true, currentStep := KYCStep.completed }) := by
  have hres : verifySelfieWithDocument env =
      { success := true, facesDetected := 1, isHoldingDocument := true,
        faceMatchConfidence := mkRat 8 10, validationErrors := [],
        confidence := mkRat 7 10 } := by
    rcases hparse with h | h <;>
      · rw [verifySelfieWithDocument, h]
        simp only [hok, if_true]
        congr 1
  refine ⟨hres, ?_⟩
  intro oenv st pid img ks hsel hset hks hfront hdoc
  rw [processKYCSelfie, hks]
  simp only [hfront, hdoc, false_or, or_self, if_false]
  rw [hsel, hres]
  simp [hset, setPlayerVerified, completeKYCProcess, hks]

/-- C10 witness: a concrete selfie turn whose vision reply is prose without
JSON passes the stage and completes the KYC process. -/
theorem C10_unparseable_selfie_json_witness :
    verifySelfieWithDocument
        { vision := { success := true, rawResponse := "Se ve una persona con su cédula." },
          parsed := JsonOutcome.noJson }
      = { success := true, facesDetected := 1, isHoldingDocument := true,
          faceMatchConfidence := mkRat 8 10, validationErrors := [],
          confidence := mkRat 7 10 } :=
  (C10_unparseable_selfie_json_passes
    { vision := { success := true, rawResponse := "Se ve una persona con su cédula." },
      parsed := JsonOutcome.noJson }
    (by decide) (Or.inl rfl)).1

/-! ## State-preservation facts used by the router claims -/

@[simp] theorem clearTicketContext_messages (st : ChatState) :
    (clearTicketContext st).messages = st.messages := rfl

@[simp] theorem setLastVerifiedTicket_messages (st : ChatState) (tid : String) (b : Bet) :
    (setLastVerifiedTicket st tid b).messages = st.messages := rfl

@[simp] theorem initKYCProcess_messages (st : ChatState) :
    (initKYCProcess st).messages = st.messages := rfl

@[simp] theorem clearKYCState_messages (st : ChatState) :
    (clearKYCState st).messages = st.messages := rfl

@[simp] theorem updateKYCFrontDocument_messages (st : ChatState) (d : FrontDocUpdate) :
    (updateKYCFrontDocument st d).messages = st.messages := rfl

@[simp] theorem updateKYCBackDocument_messages (st : ChatState) (img : String) :
    (updateKYCBackDocument st img).messages = st.messages := by
  rw [updateKYCBackDocument]
  split <;> rfl

@[simp] theorem completeKYCProcess_messages (st : ChatState) :
    (completeKYCProcess st).messages = st.messages := by
  rw [completeKYCProcess]
  split <;> rfl

@[simp] theorem processKYCFrontDocument_messages (players : List Player)
    (env : OrchestratorEnv) (st : ChatState) (pid img : String) :
    (processKYCFrontDocument players env st pid img).1.messages = st.messages := by
  rw [processKYCFrontDocument]
  split <;> simp

@[simp] theorem processKYCBackDocument_messages (env : OrchestratorEnv)
    (st : ChatState) (img : String) :
    (processKYCBackDocument env st img).1.messages = st.messages := by
  rw [processKYCBackDocument]
  split <;> simp

@[simp] theorem processKYCSelfie_messages (env : OrchestratorEnv)
    (st : ChatState) (pid img : String) :
    (processKYCSelfie env st pid img).1.messages = st.messages := by
  rw [processKYCSelfie]
  repeat' split
  all_goals try simp
  all_goals (repeat' split)
  all_goals simp

@[simp] theorem handleKYCFlow_messages (players : List Player) (env : OrchestratorEnv)
    (st : ChatState) (pid : Option String) (img : Option String) :
    (handleKYCFlow players env st pid img).1.messages = st.messages := by
  rw [handleKYCFlow.eq_def]
  repeat' split
  all_goals try simp
  all_goals (repeat' split)
  all_goals simp

@[simp] theorem handleTicketVerificationWithContext_messages (env : OrchestratorEnv)
    (st : ChatState) :
    (handleTicketVerificationWithContext env st).1.messages = st.messages := by
  rw [handleTicketVerificationWithContext]
  repeat' split
  all_goals simp

@[simp] theorem handleTicketVerificationByText_messages (ledger : List Bet)
    (st : ChatState) (tid q : String) :
    (handleTicketVerificationByText ledger st tid q).1.messages = st.messages := by
  rw [handleTicketVerificationByText]
  split <;> simp

@[simp] theorem dispatchFlow_messages (players : List Player) (ledger : List Bet)
    (env : OrchestratorEnv) (st : ChatState) (dto : ProcessMessageDto)
    (hasText hasImages : Bool) (flowType : FlowType) :
    (dispatchFlow players ledger env st dto hasText hasImages flowType).1.messages
      = st.messages := by
  rw [dispatchFlow.eq_def]
  repeat' split
  all_goals simp

theorem finishTurn_eq (st : ChatState) (resp : Reply) (ft : FlowType) :
    finishTurn st resp ft =
      if st.session.status = SessionStatus.closed then
        Except.error "Session is closed"
      else
        Except.ok (resp, ft,
          { st with messages := st.messages
              ++ [{ role := MessageRole.assistant, text := resp }] }) := by
  rw [finishTurn, addMessage]
  by_cases hc : st.session.status = SessionStatus.closed
  · rw [if_pos hc, if_pos hc]
  · rw [if_neg hc, if_neg hc]

theorem finishTurn_ok {st : ChatState} {resp : Reply} {ft : FlowType}
    {r : Reply} {f : FlowType} {st' : ChatState}
    (h : finishTurn st resp ft = Except.ok (r, f, st')) :
    r = resp ∧ f = ft ∧
    st'.messages = st.messages ++ [{ role := MessageRole.assistant, text := resp }] := by
  rw [finishTurn_eq] at h
  split at h
  · simp at h
  · simp only [Except.ok.injEq, Prod.mk.injEq] at h
    obtain ⟨hr, hf, hst⟩ := h
    exact ⟨hr.symm, hf.symm, by rw [← hst]⟩

/-! ## Claim C1 -/

/-- C1: whenever `processMessage` returns a (reply, flow) pair — through the
topic-exit, follow-up, ticket, KYC, or general branch — the returned reply has
been appended to the session's history as an assistant message, and it is the
only message added by the turn. -/
theorem C1_reply_always_persisted (players : List Player) (ledger : List Bet)
    (env : OrchestratorEnv) (st : ChatState) (dto : ProcessMessageDto)
    (r : Reply) (f : FlowType) (st' : ChatState)
    (h : processMessage players ledger env st dto = Except.ok (r, f, st')) :
    st'.messages = st.messages ++ [{ role := MessageRole.assistant, text := r }] := by
  rw [processMessage] at h
  split at h
  · obtain ⟨hr, _, hm⟩ := finishTurn_ok h
    rw [hm, clearTicketContext_messages, hr]
  · split at h
    · obtain ⟨hr, _, hm⟩ := finishTurn_ok h
      rw [hm, hr]
    · obtain ⟨hr, _, hm⟩ := finishTurn_ok h
      rw [hm, dispatchFlow_messages, hr]

deriving instance DecidableEq for Except

/-- The oracle with every external call failed/absent, used by concrete
witnesses. -/
def envQuiet : OrchestratorEnv :=
  { intent := none
    imageVision := { success := false, rawResponse := "" }
    followUpAnswer := ""
    ticketImage := { success := false, formatted := "" }
    generalVision := { success := false, rawResponse := "" }
    nlp := none
    front := { vision := { success := false, extractedData := none },
               ocr := { success := false } }
    back := { vision := { success := false, rawResponse := "" },
              parsed := JsonOutcome.noJson }
    selfie := { vision := { success := false, rawResponse := "" },
                parsed := JsonOutcome.noJson }
    setVerifiedOk := false }

/-- A fresh active session with empty history. -/
def stFresh : ChatState :=
  { session := { status := SessionStatus.active, context := SessionContext.general },
    messages := [] }

/-- The general fallback reply. -/
def fallbackReply : Reply :=
  Reply.lit "Hola, soy el asistente de Sorti365. ¿En qué puedo ayudarte? Puedes enviarme el ID de un ticket o una foto para verificarlo, o iniciar tu proceso de verificación de identidad."

set_option maxRecDepth 4096 in
/-- C1 witness: a concrete "Hola" turn with no classified intent returns the
fallback reply and appends exactly it to the (empty) history. -/
theorem C1_reply_always_persisted_witness :
    ({ session := { status := SessionStatus.active, context := SessionContext.general },
       messages := [{ role := MessageRole.assistant, text := fallbackReply }] } : ChatState).messages
      = stFresh.messages ++ [{ role := MessageRole.assistant, text := fallbackReply }] :=
  C1_reply_always_persisted [] [] envQuiet stFresh
    { playerId := none, content := "Hola", images := [] }
    fallbackReply FlowType.general_query
    { session := { status := SessionStatus.active, context := SessionContext.general },
      messages := [{ role := MessageRole.assistant, text := fallbackReply }] }
    (by decide)

/-! ## Claim C9 -/

/-- C9: on a session with an active ticket context, a text turn matching the
exit lexicon — whatever else the turn contains: follow-up keywords, images —
clears `lastVerifiedTicket`, resets the session's topic tag to general, and
returns the fixed acknowledgement tagged `general_query`; only that reply is
appended to the history. -/
theorem C9_topic_exit_priority (players : List Player) (ledger : List Bet)
    (env : OrchestratorEnv) (st : ChatState) (dto : ProcessMessageDto)
    (hactive : st.session.status = SessionStatus.active)
    (hctx : st.session.lastVerifiedTicket.isSome = true)
    (htext : (jsTrim dto.content != "") = true)
    (hexit : EXIT_CONTEXT_KEYWORDS.any
      (fun kw => jsIncludes (jsToLower dto.content) kw) = true) :
    processMessage players ledger env st dto =
      Except.ok (Reply.lit exitAckMsg, FlowType.general_query,
        { session := { st.session with
                       lastVerifiedTicket := none
                       context := SessionContext.general },
          messages := st.messages
            ++ [{ role := MessageRole.assistant, text := Reply.lit exitAckMsg }] }) := by
  simp only [processMessage]
  rw [if_pos (by rw [hctx, htext, hexit]; rfl)]
  rw [finishTurn_eq]
  rw [if_neg (by simp [clearTicketContext, hactive])]
  rfl

/-- A session carrying a verified-ticket context, used by the C9 witness. -/
def stWithTicketCtx : ChatState :=
  { session := { status := SessionStatus.active
                 context := SessionContext.ticket_verification
                 lastVerifiedTicket := some { ticketId := "85426"
                                              betData := { betLocalId := "0000085426" } } }
    messages := [] }

set_option maxRecDepth 8192 in
/-- C9 witness: the exit check wins on a concrete turn whose text matches
both the exit AND the follow-up lexicon and that carries an image. -/
theorem C9_topic_exit_priority_witness :
    processMessage [] [] envQuiet stWithTicketCtx
        { playerId := none, content := "por qué perdí? bueno, ok gracias",
          images := ["imgdata"] }
      = Except.ok (Reply.lit exitAckMsg, FlowType.general_query,
          { session := { stWithTicketCtx.session with
                         lastVerifiedTicket := none
                         context := SessionContext.general },
            messages := stWithTicketCtx.messages
              ++ [{ role := MessageRole.assistant, text := Reply.lit exitAckMsg }] }) :=
  C9_topic_exit_priority [] [] envQuiet stWithTicketCtx
    { playerId := none, content := "por qué perdí? bueno, ok gracias",
      images := ["imgdata"] }
    (by decide) (by decide) (by decide) (by decide)

/-! ## Claim C2 -/

/-- The reply Ticket Resolution produces for an explicit id: the formatted
ledger record (with or without the follow-up suffix) or the shared not-found
message. -/
def ticketResolutionReply (ledger : List Bet) (tid question : String)
    (withSuffix : Bool) : Reply :=
  match (findBetByLocalId ledger tid).bet with
  | some bet => Reply.betResponse (formatBetResponse bet question) withSuffix
  | none => Reply.lit (betNotFoundMsg tid)

set_option maxRecDepth 8192 in
/-- C2 counterexample: a turn with no ticket context whose text carries the
ticket id `0000085426` (the ledger even holds that bet) is routed to the KYC
flow when the intent classifier returns `kyc_start` — the id scan does NOT
have priority over intent classification: the flow type is `kyc_document`,
not `ticket_verification`, and the reply is the KYC login prompt, not a
ticket resolution. -/
theorem C2_counterexample :
    extractTicketId "mi ticket es 0000085426" = some "0000085426" ∧
    stFresh.session.lastVerifiedTicket = none ∧
    processMessage [] [{ betLocalId := "0000085426" }]
        { envQuiet with intent := some { type := "kyc_start" } }
        stFresh
        { playerId := none, content := "mi ticket es 0000085426", images := [] }
      = Except.ok
          (Reply.lit "Para verificar tu identidad, necesitas estar logueado en tu cuenta.",
           FlowType.kyc_document,
           { stFresh with messages := [{ role := MessageRole.assistant, text := Reply.lit "Para verificar tu identidad, necesitas estar logueado en tu cuenta." }] }) := by
  refine ⟨by decide, by decide, by decide⟩

/-- C2 (amended): on a turn with no active ticket context, non-empty text
containing a ticket id, and no images, the id scan decides the turn UNLESS
the intent classifier returned a KYC intent (`kyc_start`/`kyc_upload`), which
overrides it: for a `ticket_verification` intent the turn is the ticket flow
and the reply is the id's Ticket-Resolution reply with the follow-up suffix;
for any other (or no) intent the general-query handler still resolves the id
and replies with its Ticket-Resolution reply without the suffix. -/
theorem C2_ticket_scan_vs_intent (players : List Player) (ledger : List Bet)
    (env : OrchestratorEnv) (st : ChatState) (dto : ProcessMessageDto)
    (tid : String) (r : Reply) (f : FlowType) (st' : ChatState)
    (hctx : st.session.lastVerifiedTicket = none)
    (htext : (jsTrim dto.content != "") = true)
    (himg : dto.images = [])
    (hid : extractTicketId dto.content = some tid)
    (hintent : ∀ i, env.intent = some i → i.type ≠ "kyc_start" ∧ i.type ≠ "kyc_upload")
    (h : processMessage players ledger env st dto = Except.ok (r, f, st')) :
    (r = ticketResolutionReply ledger tid dto.content true
      ∧ f = FlowType.ticket_verification) ∨
    (r = ticketResolutionReply ledger tid dto.content false
      ∧ f = FlowType.general_query) := by
  have hImgs : (!dto.images.isEmpty) = false := by rw [himg]; rfl
  simp only [processMessage] at h
  rw [if_neg (by simp [hctx]), if_neg (by simp [hctx])] at h
  obtain ⟨hr, hf, -⟩ := finishTurn_ok h
  have hgen : handleGeneralQuery ledger env dto.content dto.images
      = ticketResolutionReply ledger tid dto.content false := by
    rw [handleGeneralQuery.eq_def, hid, ticketResolutionReply]
  have hbytext : (handleTicketVerificationByText ledger st tid dto.content).2
      = ticketResolutionReply ledger tid dto.content true := by
    rw [handleTicketVerificationByText, ticketResolutionReply]
    rcases (findBetByLocalId ledger tid).bet with _ | bet <;> rfl
  rcases hI : env.intent with _ | i
  · have hflow : classifyFlow env (jsTrim dto.content != "") (!dto.images.isEmpty)
        = FlowType.general_query := by
      rw [classifyFlow, hI, hImgs, htext]
      rfl
    rw [hflow] at hr hf
    right
    refine ⟨?_, hf⟩
    rw [hr, dispatchFlow, hgen]
  · by_cases hty : i.type = "ticket_verification"
    · have hflow : classifyFlow env (jsTrim dto.content != "") (!dto.images.isEmpty)
          = FlowType.ticket_verification := by
        rw [classifyFlow, hI, hImgs, htext]
        simp [hty]
      rw [hflow] at hr hf
      left
      refine ⟨?_, hf⟩
      rw [hr, dispatchFlow]
      rw [if_neg (by rw [hImgs]; simp), if_pos htext, hid]
      exact hbytext
    · have hkyc := hintent i hI
      have hflow : classifyFlow env (jsTrim dto.content != "") (!dto.images.isEmpty)
          = FlowType.general_query := by
        rw [classifyFlow, hI, hImgs, htext]
        simp [hty, hkyc.1, hkyc.2]
      rw [hflow] at hr hf
      right
      refine ⟨?_, hf⟩
      rw [hr, dispatchFlow, hgen]

set_option maxRecDepth 8192 in
/-- C2 witness: with a `ticket_verification` intent and the id `0000085426`
in the text (empty ledger), the turn resolves the id through Ticket
Resolution: the reply is the id's not-found resolution reply and the flow is
`ticket_verification`. -/
theorem C2_ticket_scan_vs_intent_witness :
    (Reply.lit (betNotFoundMsg "0000085426")
        = ticketResolutionReply [] "0000085426" "mi ticket es 0000085426" true
      ∧ FlowType.ticket_verification = FlowType.ticket_verification) ∨
    (Reply.lit (betNotFoundMsg "0000085426")
        = ticketResolutionReply [] "0000085426" "mi ticket es 0000085426" false
      ∧ FlowType.ticket_verification = FlowType.general_query) :=
  C2_ticket_scan_vs_intent [] []
    { envQuiet with intent := some { type := "ticket_verification" } }
    stFresh
    { playerId := none, content := "mi ticket es 0000085426", images := [] }
    "0000085426"
    (Reply.lit (betNotFoundMsg "0000085426"))
    FlowType.ticket_verification
    { stFresh with messages := [{ role := MessageRole.assistant, text := Reply.lit (betNotFoundMsg "0000085426") }] }
    (by decide) (by decide) (by decide) (by decide)
    (by intro i hi; cases hi; exact ⟨by decide, by decide⟩)
    (by decide)

end Sorti365
